/-
Verification of the Tapestry–Miniflux connector (ch.alienlebarge.miniflux/plugin.js).

The connector is a single ES5 script driven by the Tapestry host.  This file is a
shallow embedding of its logic: the ambient configuration variables (site,
apiToken, limit) become explicit arguments, the host's HTTP primitive
(sendRequest) becomes an explicit request outcome passed in, and each entry
point is a pure function returning the observable behaviour of one invocation
(requests issued, host callbacks invoked, promise outcome).
-/
import Mathlib

namespace Miniflux

/-- A property of a JS object: `unset` when the script never assigns it,
`set none` when the script assigns the JS value `undefined` (the absence
marker, which the Tapestry rendering layer shows as the literal text
"undefined"), and `set (some v)` when the script assigns a real value. -/
inductive JSProp (α : Type) where
  | unset : JSProp α
  | set : Option α → JSProp α
deriving DecidableEq

/-- Decimal digits of a natural number, most significant first.  This is a
structurally transparent mirror of core's fuel-based `Nat.toDigits 10`; the
lemma `repr_data` below proves they agree, so facts established here transfer
to `Nat.repr`. -/
def natDecimal (n : Nat) : List Char :=
  if n < 10 then [Nat.digitChar n]
  else natDecimal (n / 10) ++ [Nat.digitChar (n % 10)]
termination_by n
decreasing_by exact Nat.div_lt_self (by omega) (by omega)

/-- The string JS produces when a nonnegative integer Number is concatenated
with a string (plugin.js line 60: `entry.url + "#" + entry.id`). -/
def jsNatToString (n : Nat) : String := Nat.repr n

/-- The string JS produces for an integer Number, possibly negative
(plugin.js line 43: `"&published_after=" + oneDayAgo`). -/
def jsIntToString (i : Int) : String := Int.repr i

/-- Bool-valued test that `needle` is a prefix of `hay` (character lists). -/
def hasPrefixCL : List Char → List Char → Bool
  | [], _ => true
  | _ :: _, [] => false
  | a :: as, b :: bs => a == b && hasPrefixCL as bs

/-- Bool-valued test that `needle` occurs contiguously inside `hay`. -/
def hasSegCL (needle : List Char) : List Char → Bool
  | [] => hasPrefixCL needle []
  | b :: t => hasPrefixCL needle (b :: t) || hasSegCL needle t

/-- ES2015 `String.prototype.includes`: `s.includes(marker)`. -/
def jsIncludes (s marker : String) : Bool := hasSegCL marker.data s.data

/-- JS `site.replace(/\/$/, "")` (plugin.js lines 35, 120, 216): drop one
trailing "/" when present. -/
def stripTrailingSlash (s : String) : String :=
  if s.data.getLast? = some '/' then ⟨s.data.dropLast⟩ else s

/-- The embedded feed of a Miniflux entry, as used by the repository (CLAUDE.md
item-creation pattern): a title and a site URL, each possibly absent. -/
structure Feed where
  title : Option String
  site_url : Option String
deriving DecidableEq

/-- A Miniflux entry as consumed by the connector: integer id, url, title,
HTML content, read status, starred flag, publication timestamp (modelled as a
JS Number, per the specified epoch-seconds reading), and the embedded feed.
plugin.js reads `id`, `url`, `title`, `published_at`; the remaining fields are
carried so claims about them can be stated. -/
structure Entry where
  id : Nat
  url : String
  title : Option String
  content : Option String
  status : String
  starred : Bool
  published_at : Int
  feed : Option Feed
deriving DecidableEq

/-- ECMA-262 `Date`: an absolute instant held as its time value, milliseconds
since the Unix epoch. -/
structure JSDate where
  epochMillis : Int
deriving DecidableEq

/-- `new Date(n)` for a Number argument `n`: the instant whose time value is
`n` milliseconds since the epoch (ECMA-262, Date constructor on a number). -/
def jsDateOfNumber (n : Int) : JSDate := ⟨n⟩

/-- Tapestry `Identity.createWithName`: a display name with optional avatar
and uri properties. -/
structure Identity where
  name : String
  avatar : JSProp String
  uri : JSProp String
deriving DecidableEq

/-- A Tapestry `Item`: `Item.createWithUriDate` fixes `uri` and `date`; every
other property starts unset and is present only if the script assigns it. -/
structure Item where
  uri : String
  date : JSDate
  title : JSProp String := .unset
  body : JSProp String := .unset
  author : JSProp Identity := .unset
  source : JSProp Identity := .unset
  action : JSProp String := .unset
  actionValue : JSProp String := .unset
deriving DecidableEq

/-- Tapestry `Item.createWithUriDate(uri, date)`. -/
def Item.createWithUriDate (uri : String) (date : JSDate) : Item :=
  { uri := uri, date := date }

/-- plugin.js `convertEntryToItem` (lines 58–72): the uri is
`entry.url + "#" + entry.id`, the date is `new Date(entry.published_at)`, and
the only property assignment is the unconditional `item.title = entry.title`
(the source comments "Set only title for performance testing"), so an absent
title stores `undefined`. -/
def convertEntryToItem (entry : Entry) : Item :=
  let uri := entry.url ++ "#" ++ jsNatToString entry.id
  let date := jsDateOfNumber entry.published_at
  let item := Item.createWithUriDate uri date
  { item with title := .set entry.title }

/-- The parsed body of `GET /v1/entries`: `{ total, entries }`, where the
`entries` array may be absent (plugin.js line 182 guards `data.entries`). -/
structure EntriesResponse where
  total : Nat
  entries : Option (List Entry)
deriving DecidableEq

/-- The success branch of plugin.js `load` (lines 177–191): when
`data.entries` is present and non-empty, each entry is converted in order and
pushed; otherwise the item list is empty. -/
def loadItems (data : EntriesResponse) : List Item :=
  match data.entries with
  | some es => if es.length > 0 then es.map convertEntryToItem else []
  | none => []

/-- plugin.js `load` (lines 170–193): one GET whose `.then` maps the parsed
body through the conversion; there is no `.catch`, so a failed request rejects
the promise returned to the host with the underlying error.  The HTTP and
JSON-parsing layer is abstracted as the already-parsed outcome of the
request. -/
def load (result : Except String EntriesResponse) : Except String (List Item) :=
  match result with
  | .ok data => .ok (loadItems data)
  | .error e => .error e

/-- The parsed body of `GET /v1/me`: a user object whose `username` may be
absent. -/
structure UserData where
  username : Option String
deriving DecidableEq

/-- Observable behaviour of one `verify()` invocation: URLs requested,
`processVerification` display names, `processError` messages, and the outcome
of the returned promise. -/
structure VerifyOutcome where
  requests : List String
  verifications : List String
  errors : List String
  promise : Except String Unit

/-- The user-facing message selection in the `.catch` of plugin.js `verify`
(lines 139–154): markers are tested with `error.message.includes(...)` in the
order 401, 404, "timeout"; otherwise a truthy (non-empty) message is wrapped
as "Connection error: " + message, and an empty message leaves the initial
"Failed to connect to Miniflux". -/
def verifyErrorMessage (msg : String) : String :=
  if jsIncludes msg "401" then "Authentication failed. Please check your API token."
  else if jsIncludes msg "404" then "Miniflux instance not found. Please check your instance URL."
  else if jsIncludes msg "timeout" then "Request timeout. Please check your internet connection."
  else if msg ≠ "" then "Connection error: " ++ msg
  else "Failed to connect to Miniflux"

/-- plugin.js `verify` (lines 107–160).  `!site || !apiToken` is string
truthiness, i.e. either configuration string empty; in that case the function
returns `Promise.resolve()` before building any request.  `userResult`
abstracts the GET to `/v1/me` together with `JSON.parse`: `.ok u` is the
parsed user object, `.error m` a failure whose message is `m`. -/
def verify (site apiToken : String) (userResult : Except String UserData) :
    VerifyOutcome :=
  if site = "" ∨ apiToken = "" then
    { requests := [], verifications := [], errors := [], promise := .ok () }
  else
    let verifyUrl := stripTrailingSlash site ++ "/v1/me"
    match userResult with
    | .ok userData =>
      let displayName :=
        match userData.username with
        | some u => if u ≠ "" then "Miniflux (" ++ u ++ ")" else "Miniflux Feed"
        | none => "Miniflux Feed"
      { requests := [verifyUrl], verifications := [displayName], errors := [],
        promise := .ok () }
    | .error msg =>
      { requests := [verifyUrl], verifications := [],
        errors := [verifyErrorMessage msg], promise := .error msg }

/-- ES `parseInt` restricted to its usage here: the leading decimal digits of
the string, `none` for NaN (no leading digit). -/
def jsParseInt (s : String) : Option Nat :=
  let ds := s.data.takeWhile fun c => c.isDigit
  if ds.isEmpty then none
  else some (ds.foldl (fun acc c => acc * 10 + (c.toNat - 48)) 0)

/-- The body of the state-update call of `performAction` (lines 220–223):
`{ entry_ids: [parseInt(actionValue)], status: "read" }`. -/
structure UpdateBody where
  entry_ids : List (Option Nat)
  status : String
deriving DecidableEq

/-- An outbound state-update request: url, method and body. -/
structure PutRequest where
  url : String
  method : String
  body : UpdateBody
deriving DecidableEq

/-- Observable behaviour of one `performAction` invocation: requests issued
and the outcome of the returned promise (`.ok (some r)` resolves with the
response, `.ok none` resolves with no value, `.error` rejects). -/
structure DispatchOutcome where
  requests : List PutRequest
  promise : Except String (Option String)

/-- plugin.js `performAction` (lines 206–236): any action other than
"mark_as_read" resolves immediately with no request (lines 210–213);
otherwise one PUT is issued and its `.catch` deliberately swallows a failure
(`return Promise.resolve()`, line 234), so the promise resolves either way. -/
def performAction (actionId actionValue site : String)
    (putResult : Except String String) : DispatchOutcome :=
  if actionId ≠ "mark_as_read" then { requests := [], promise := .ok none }
  else
    let updateUrl := stripTrailingSlash site ++ "/v1/entries"
    let req : PutRequest :=
      ⟨updateUrl, "PUT", ⟨[jsParseInt actionValue], "read"⟩⟩
    match putResult with
    | .ok resp => { requests := [req], promise := .ok (some resp) }
    | .error _ => { requests := [req], promise := .ok none }

/-- JS `limit || 10` (plugin.js line 46): an unset limit and a zero limit are
both falsy and fall back to 10. -/
def jsLimitOr10 (limit : Option Nat) : Nat :=
  match limit with
  | some n => if n = 0 then 10 else n
  | none => 10

/-- plugin.js line 42: `Math.floor(Date.now() / 1000) - (1 * 24 * 60 * 60)`.
`Math.floor` of a nonnegative quotient is floor division, matched by `Int`
division on the nonnegative dividend `nowMs`. -/
def oneDayAgoOf (nowMs : Nat) : Int :=
  (nowMs : Int) / 1000 - (1 * 24 * 60 * 60)

/-- plugin.js `buildEntriesUrl` (lines 33–50).  `limit` is the ambient
configuration value (`none` when unset) and `nowMs` is `Date.now()`. -/
def buildEntriesUrl (site : String) (limit : Option Nat) (nowMs : Nat) : String :=
  let baseUrl := stripTrailingSlash site
  let url := baseUrl ++ "/v1/entries?status=unread&order=published_at&direction=desc"
  let url := url ++ "&published_after=" ++ jsIntToString (oneDayAgoOf nowMs)
  url ++ "&limit=" ++ jsNatToString (jsLimitOr10 limit)

/-- The first entry of the server response used as the specified example for
the load flow: `{id: 10, starred: true, status: "unread"}`. -/
def entryUnread10 : Entry :=
  { id := 10, url := "https://example.org/a", title := some "A"
    content := some "<p>a</p>", status := "unread", starred := true
    published_at := 1700000000, feed := none }

/-- The second entry of the specified example response:
`{id: 11, starred: false, status: "read"}`. -/
def entryRead11 : Entry :=
  { id := 11, url := "https://example.org/b", title := some "B"
    content := some "<p>b</p>", status := "read", starred := false
    published_at := 1700000100, feed := none }

/-- The specified example server response `{total: 2, entries: [...]}`. -/
def respExample : EntriesResponse :=
  { total := 2, entries := some [entryUnread10, entryRead11] }

/-- An entry with every optional source field present, including a feed with
title, site URL and a category: the input used to exhibit the fields the
mapper fails to populate. -/
def entryFull : Entry :=
  { id := 7, url := "https://example.org/full", title := some "Hello"
    content := some "<p>Body</p>", status := "unread", starred := false
    published_at := 1700000000
    feed := some { title := some "Example Feed", site_url := some "https://example.org/sub/page" } }

/-- An entry whose title is absent: the input on which the unconditional
`item.title = entry.title` assigns `undefined`. -/
def entryNoTitle : Entry :=
  { id := 8, url := "https://example.org/notitle", title := none
    content := some "<p>x</p>", status := "unread", starred := false
    published_at := 1700000000, feed := none }

/-! Helper lemmas: decimal rendering, substring search, list splitting. -/

theorem digitChar_isDigit : ∀ m, m < 10 → (Nat.digitChar m).isDigit = true := by
  decide

theorem digitChar_inj :
    ∀ a, a < 10 → ∀ b, b < 10 → Nat.digitChar a = Nat.digitChar b → a = b := by
  decide

theorem natDecimal_lt {n : Nat} (h : n < 10) : natDecimal n = [Nat.digitChar n] := by
  rw [natDecimal]; simp [h]

theorem natDecimal_ge {n : Nat} (h : ¬ n < 10) :
    natDecimal n = natDecimal (n / 10) ++ [Nat.digitChar (n % 10)] := by
  rw [natDecimal]; simp [h]

theorem natDecimal_ne_nil (n : Nat) : natDecimal n ≠ [] := by
  by_cases h : n < 10
  · rw [natDecimal_lt h]; simp
  · rw [natDecimal_ge h]; simp

theorem mem_natDecimal_isDigit (n : Nat) : ∀ c ∈ natDecimal n, c.isDigit = true := by
  induction n using Nat.strong_induction_on with
  | _ n ih =>
    intro c hc
    by_cases h : n < 10
    · rw [natDecimal_lt h] at hc
      simp at hc
      subst hc
      exact digitChar_isDigit n h
    · rw [natDecimal_ge h] at hc
      simp at hc
      rcases hc with hc | hc
      · exact ih (n / 10) (Nat.div_lt_self (by omega) (by omega)) c hc
      · subst hc
        exact digitChar_isDigit _ (Nat.mod_lt _ (by omega))

theorem natDecimal_inj : ∀ a b : Nat, natDecimal a = natDecimal b → a = b := by
  intro a
  induction a using Nat.strong_induction_on with
  | _ a ih =>
    intro b h
    by_cases ha : a < 10 <;> by_cases hb : b < 10
    · rw [natDecimal_lt ha, natDecimal_lt hb] at h
      simp at h
      exact digitChar_inj a ha b hb h
    · rw [natDecimal_lt ha, natDecimal_ge hb] at h
      cases hnd : natDecimal (b / 10) with
      | nil => exact absurd hnd (natDecimal_ne_nil _)
      | cons x xs =>
        rw [hnd] at h
        simp at h
    · rw [natDecimal_ge ha, natDecimal_lt hb] at h
      cases hnd : natDecimal (a / 10) with
      | nil => exact absurd hnd (natDecimal_ne_nil _)
      | cons x xs =>
        rw [hnd] at h
        simp at h
    · rw [natDecimal_ge ha, natDecimal_ge hb] at h
      have hrev := congrArg List.reverse h
      simp at hrev
      obtain ⟨h1, h2⟩ := hrev
      have hmod : a % 10 = b % 10 :=
        digitChar_inj _ (Nat.mod_lt _ (by omega)) _ (Nat.mod_lt _ (by omega)) h1
      have hdiv : a / 10 = b / 10 := by
        apply ih (a / 10) (Nat.div_lt_self (by omega) (by omega))
        have := congrArg List.reverse h2
        simpa using this
      omega

theorem toDigitsCore_eq_natDecimal :
    ∀ (fuel n : Nat) (acc : List Char), n < 10 ^ (fuel + 1) →
      Nat.toDigitsCore 10 (fuel + 1) n acc = natDecimal n ++ acc := by
  intro fuel
  induction fuel with
  | zero =>
    intro n acc h
    have hn : n < 10 := by simpa using h
    have h0 : n / 10 = 0 := Nat.div_eq_of_lt hn
    rw [natDecimal_lt hn]
    simp [Nat.toDigitsCore, h0, Nat.mod_eq_of_lt hn]
  | succ f ih =>
    intro n acc h
    by_cases h0 : n / 10 = 0
    · have hn : n < 10 := by omega
      rw [natDecimal_lt hn]
      simp [Nat.toDigitsCore, h0, Nat.mod_eq_of_lt hn]
    · have hn : ¬ n < 10 := by
        intro hc; exact h0 (Nat.div_eq_of_lt hc)
      have hdiv : n / 10 < 10 ^ (f + 1) := by
        rw [Nat.div_lt_iff_lt_mul (by norm_num)]
        calc n < 10 ^ (f + 1 + 1) := h
        _ = 10 ^ (f + 1) * 10 := by ring
      rw [natDecimal_ge hn]
      rw [show Nat.toDigitsCore 10 (f + 1 + 1) n acc =
        Nat.toDigitsCore 10 (f + 1) (n / 10) (Nat.digitChar (n % 10) :: acc) from by
          simp [Nat.toDigitsCore, h0]]
      rw [ih (n / 10) _ hdiv]
      simp

theorem repr_data (n : Nat) : (Nat.repr n).data = natDecimal n := by
  have h : n < 10 ^ (n + 1) := by
    calc n < 10 ^ n := Nat.lt_pow_self (by norm_num) n
    _ ≤ 10 ^ (n + 1) := Nat.pow_le_pow_right (by norm_num) (by omega)
  show (Nat.toDigits 10 n).asString.data = natDecimal n
  rw [Nat.toDigits, toDigitsCore_eq_natDecimal n n [] h]
  simp [List.asString]

theorem jsNatToString_data (n : Nat) : (jsNatToString n).data = natDecimal n :=
  repr_data n

theorem jsNatToString_inj {a b : Nat} (h : jsNatToString a = jsNatToString b) :
    a = b := by
  apply natDecimal_inj
  rw [← jsNatToString_data, ← jsNatToString_data, h]

theorem mem_jsNatToString_isDigit (n : Nat) :
    ∀ c ∈ (jsNatToString n).data, c.isDigit = true := by
  rw [jsNatToString_data]
  exact mem_natDecimal_isDigit n

theorem mem_jsIntToString (i : Int) :
    ∀ c ∈ (jsIntToString i).data, c.isDigit = true ∨ c = '-' := by
  intro c hc
  cases i with
  | ofNat m =>
    left
    exact mem_jsNatToString_isDigit m c hc
  | negSucc m =>
    have hdata : (jsIntToString (Int.negSucc m)).data =
        '-' :: (Nat.repr (m + 1)).data := by
      show (("-" : String) ++ Nat.repr (m + 1)).data = _
      rw [String.data_append]
      rfl
    rw [hdata] at hc
    simp at hc
    rcases hc with hc | hc
    · right; exact hc
    · left; exact mem_natDecimal_isDigit _ c (by rwa [repr_data] at hc)

theorem string_data_inj {s t : String} (h : s.data = t.data) : s = t := by
  cases s; cases t; exact congrArg String.mk h

theorem hasPrefixCL_iff : ∀ (a b : List Char), hasPrefixCL a b = true ↔ a <+: b := by
  intro a
  induction a with
  | nil => intro b; simp [hasPrefixCL]
  | cons x xs ih =>
    intro b
    cases b with
    | nil => simp [hasPrefixCL]
    | cons y ys =>
      simp [hasPrefixCL, List.cons_prefix_cons, ih ys]

theorem hasSegCL_iff : ∀ (a b : List Char), hasSegCL a b = true ↔ a <:+: b := by
  intro a b
  induction b with
  | nil => simp [hasSegCL, hasPrefixCL_iff, List.infix_nil, List.prefix_nil]
  | cons y ys ih =>
    simp [hasSegCL, hasPrefixCL_iff, ih, List.infix_cons_iff]

theorem jsIncludes_iff (s marker : String) :
    jsIncludes s marker = true ↔ marker.data <:+: s.data :=
  hasSegCL_iff marker.data s.data

theorem infix_append_split {l u v : List Char} (h : l <:+: u ++ v) :
    l <:+: u ∨ l <:+: v ∨ ∃ n, 0 < n ∧ n < l.length ∧ l.drop n <+: v := by
  obtain ⟨s, t, hst⟩ := h
  by_cases h1 : s.length + l.length ≤ u.length
  · left
    have hu : u = (u ++ v).take u.length := by simp
    rw [← hst, List.append_assoc, List.take_append_eq_append_take,
      List.take_of_length_le (by omega), List.take_append_eq_append_take,
      List.take_of_length_le (by omega)] at hu
    exact ⟨s, t.take (u.length - s.length - l.length), by
      rw [List.append_assoc]; exact hu.symm⟩
  · by_cases h2 : u.length ≤ s.length
    · right; left
      have hv : v = (u ++ v).drop u.length := by simp
      rw [← hst, List.append_assoc, List.drop_append_eq_append_drop,
        List.drop_append_eq_append_drop] at hv
      have e0 : u.length - s.length = 0 := by omega
      rw [e0] at hv
      simp only [List.drop_zero, Nat.zero_sub] at hv
      exact ⟨s.drop u.length, t, by rw [List.append_assoc]; exact hv.symm⟩
    · right; right
      refine ⟨u.length - s.length, by omega, by omega, ?_⟩
      have hv : v = (u ++ v).drop u.length := by simp
      rw [← hst, List.append_assoc, List.drop_append_eq_append_drop] at hv
      rw [List.drop_eq_nil_of_le (by omega : s.length ≤ u.length)] at hv
      simp only [List.nil_append] at hv
      rw [List.drop_append_eq_append_drop] at hv
      have e0 : u.length - s.length - l.length = 0 := by omega
      rw [e0] at hv
      simp only [List.drop_zero] at hv
      exact ⟨t, hv.symm⟩

theorem append_sep_inj {sep : Char} :
    ∀ (xs1 : List Char) {xs2 ys1 ys2 : List Char}, sep ∉ xs1 → sep ∉ xs2 →
      xs1 ++ sep :: ys1 = xs2 ++ sep :: ys2 → xs1 = xs2 ∧ ys1 = ys2 := by
  intro xs1
  induction xs1 with
  | nil =>
    intro xs2 ys1 ys2 _ h2 h
    cases xs2 with
    | nil => simpa using h
    | cons b bs =>
      simp at h
      obtain ⟨hb, _⟩ := h
      exact absurd (hb ▸ List.mem_cons_self b bs) h2
  | cons a as ih =>
    intro xs2 ys1 ys2 h1 h2 h
    cases xs2 with
    | nil =>
      simp at h
      obtain ⟨ha, _⟩ := h
      exact absurd (ha ▸ List.mem_cons_self a as) h1
    | cons b bs =>
      simp at h
      obtain ⟨hab, hrest⟩ := h
      have h1' : sep ∉ as := fun hc => h1 (List.mem_cons_of_mem a hc)
      have h2' : sep ∉ bs := fun hc => h2 (List.mem_cons_of_mem b hc)
      obtain ⟨hx, hy⟩ := ih h1' h2' hrest
      exact ⟨by rw [hab, hx], hy⟩

theorem data_stripTrailingSlash_isPrefix (s : String) :
    (stripTrailingSlash s).data <+: s.data := by
  unfold stripTrailingSlash
  by_cases h : s.data.getLast? = some '/'
  · rw [if_pos h]
    exact List.dropLast_prefix s.data
  · rw [if_neg h]

theorem buildEntriesUrl_data (site : String) (limit : Option Nat) (nowMs : Nat) :
    (buildEntriesUrl site limit nowMs).data =
      (stripTrailingSlash site).data ++
        ("/v1/entries?status=unread&order=published_at&direction=desc".data ++
          ("&published_after=".data ++
            ((jsIntToString (oneDayAgoOf nowMs)).data ++
              ("&limit=".data ++ (jsNatToString (jsLimitOr10 limit)).data)))) := by
  simp [buildEntriesUrl, String.data_append, List.append_assoc]

/-! Claim theorems. -/

/-- C1, counterexample to the claim as stated: on the spec's own example
response (two entries, the first unread and starred), the load flow produces
items whose `action` and `actionValue` properties are unset — in particular
the first item does not expose a mark-as-read action. -/
theorem load_example_items_have_no_actions :
    (loadItems respExample).map Item.action = [JSProp.unset, JSProp.unset] ∧
    (loadItems respExample).map Item.actionValue = [JSProp.unset, JSProp.unset] ∧
    (JSProp.unset : JSProp String) ≠ JSProp.set (some "mark_as_read") := by
  decide

/-- C1 (amended): for every server response with a non-empty entries list, the
load flow produces exactly one display item per entry, in the server's order
(the item list is the entry list mapped through the converter); no item
carries any action — the converter leaves `action` and `actionValue`
unset. -/
theorem load_maps_entries_in_order_without_actions
    (data : EntriesResponse) (es : List Entry)
    (h1 : data.entries = some es) (h2 : es ≠ []) :
    loadItems data = es.map convertEntryToItem ∧
    (loadItems data).length = es.length ∧
    ∀ item ∈ loadItems data,
      item.action = JSProp.unset ∧ item.actionValue = JSProp.unset := by
  have hlen : 0 < es.length := List.length_pos.mpr h2
  have hload : loadItems data = es.map convertEntryToItem := by
    unfold loadItems
    rw [h1]
    simp [hlen]
  refine ⟨hload, by rw [hload]; simp, ?_⟩
  intro item hitem
  rw [hload] at hitem
  obtain ⟨e, _, rfl⟩ := List.mem_map.mp hitem
  exact ⟨rfl, rfl⟩

/-- C1 witness: the amended theorem applied to the example response. -/
theorem load_maps_entries_in_order_without_actions_witness :
    respExample.entries = some [entryUnread10, entryRead11] ∧
    ([entryUnread10, entryRead11] : List Entry) ≠ [] ∧
    (loadItems respExample = [entryUnread10, entryRead11].map convertEntryToItem ∧
     (loadItems respExample).length = [entryUnread10, entryRead11].length ∧
     ∀ item ∈ loadItems respExample,
       item.action = JSProp.unset ∧ item.actionValue = JSProp.unset) :=
  ⟨rfl, by decide,
    load_maps_entries_in_order_without_actions respExample
      [entryUnread10, entryRead11] rfl (by decide)⟩

/-- C2, the code evaluated at the failing input: for an entry with a full
HTML body and a feed carrying a title, a site URL and a category, the mapper
copies the title but leaves `body`, `author` and `source` unset — no body, no
author or source identity, no avatar, no category label is attached,
contradicting the repository's own documented item-creation pattern. -/
theorem convertEntryToItem_drops_body_author_source :
    (convertEntryToItem entryFull).title = JSProp.set (some "Hello") ∧
    (convertEntryToItem entryFull).body = JSProp.unset ∧
    (convertEntryToItem entryFull).author = JSProp.unset ∧
    (convertEntryToItem entryFull).source = JSProp.unset := by
  decide

/-- C3, the code evaluated at the failing input: for an entry whose title is
absent, the unconditional `item.title = entry.title` assigns the absence
marker `undefined` to the item's title property — exactly the pattern the
repository's own guidelines forbid ("Never assign undefined to item
properties"). -/
theorem convertEntryToItem_assigns_undefined_title :
    (convertEntryToItem entryNoTitle).title = JSProp.set none ∧
    JSProp.set (none : Option String) ≠ JSProp.unset := by
  decide

/-- C4 (confirmed): a failing state-update call during action dispatch still
resolves the dispatch (the `.catch` swallows the error and resolves), while a
failing call during load is passed through to the host as the rejection of
the load promise. -/
theorem dispatch_swallows_failure_load_propagates
    (actionValue site msg : String) :
    (performAction "mark_as_read" actionValue site (.error msg)).promise =
      .ok none ∧
    load (.error msg) = (.error msg : Except String (List Item)) := by
  constructor
  · unfold performAction
    rw [if_neg (by simp)]
  · rfl

/-- C5, counterexample to the claim as stated: the connector has no category
configuration at all (ui-config defines only `apiToken` and `limit`), so no
configured category value — "1,5" included — can put a `category_id`
parameter in the query URL: at a concrete configuration the built URL
contains no `category_id` text. -/
theorem buildEntriesUrl_concrete_has_no_category_param :
    jsIncludes (buildEntriesUrl "https://miniflux.example.net" (some 10)
      1760140800000) "category_id" = false := by
  decide

/-- C5 (amended): for every configuration (any limit, any clock, and any
instance URL not itself containing the text "category_id"), the query URL
built by the connector contains no `category_id` parameter — the URL builder
implements no category filter. -/
theorem buildEntriesUrl_never_has_category_param
    (site : String) (limit : Option Nat) (nowMs : Nat)
    (hsite : jsIncludes site "category_id" = false) :
    jsIncludes (buildEntriesUrl site limit nowMs) "category_id" = false := by
  by_contra hc
  rw [Bool.not_eq_false, jsIncludes_iff, buildEntriesUrl_data] at hc
  rcases infix_append_split hc with h | h | ⟨n, hn0, hn1, hpre⟩
  · have hin : "category_id".data <:+: site.data :=
      h.trans (data_stripTrailingSlash_isPrefix site).isInfix
    rw [← jsIncludes_iff, hsite] at hin
    cases hin
  · have hy : 'y' ∈ "category_id".data := by decide
    have hyQ := h.subset hy
    simp only [List.mem_append] at hyQ
    rcases hyQ with hq | hq | hq | hq | hq
    · revert hq; decide
    · revert hq; decide
    · rcases mem_jsIntToString _ _ hq with hd | hd
      · exact absurd hd (by decide)
      · exact absurd hd (by decide)
    · revert hq; decide
    · exact absurd (mem_jsNatToString_isDigit _ _ hq) (by decide)
  · obtain ⟨t, ht⟩ := hpre
    have h11 : ("category_id".data).length = 11 := rfl
    have hn11 : n < 11 := by rw [h11] at hn1; exact hn1
    have hne : List.drop n "category_id".data ≠ [] := by
      intro hnil
      have hzero := congrArg List.length hnil
      rw [List.length_drop, h11] at hzero
      simp at hzero
      omega
    have hhead : (List.drop n "category_id".data).head? = some '/' := by
      have hQ : ("/v1/entries?status=unread&order=published_at&direction=desc".data ++
          ("&published_after=".data ++
            ((jsIntToString (oneDayAgoOf nowMs)).data ++
              ("&limit=".data ++ (jsNatToString (jsLimitOr10 limit)).data)))).head? =
          some '/' := by
        rw [List.head?_append]
        rw [show ("/v1/entries?status=unread&order=published_at&direction=desc".data).head? =
          some '/' from rfl]
        rfl
      rw [← ht, List.head?_append] at hQ
      cases hd : (List.drop n "category_id".data).head? with
      | none => exact absurd (List.head?_eq_none_iff.mp hd) hne
      | some c =>
        rw [hd] at hQ
        simpa using hQ
    have hfalse : ∀ m, m < 11 → 0 < m →
        (List.drop m "category_id".data).head? ≠ some '/' := by decide
    exact hfalse n hn11 hn0 hhead

/-- C5 witness: the amended theorem applied to a concrete configuration. -/
theorem buildEntriesUrl_never_has_category_param_witness :
    jsIncludes "https://miniflux.example.net" "category_id" = false ∧
    jsIncludes (buildEntriesUrl "https://miniflux.example.net" (some 10)
      1760140801000) "category_id" = false :=
  ⟨by decide,
    buildEntriesUrl_never_has_category_param "https://miniflux.example.net"
      (some 10) 1760140801000 (by decide)⟩

/-- C6 (confirmed): whenever the instance URL or the API token is empty,
`verify` resolves successfully having issued no request and invoked neither
the error channel nor the verification-success callback — repeated calls with
incomplete input therefore accumulate no side effects. -/
theorem verify_incomplete_config_is_silent
    (site apiToken : String) (userResult : Except String UserData)
    (h : site = "" ∨ apiToken = "") :
    verify site apiToken userResult =
      { requests := [], verifications := [], errors := [], promise := .ok () } := by
  unfold verify
  rw [if_pos h]

/-- C6 witness: empty instance URL with a token supplied. -/
theorem verify_incomplete_config_is_silent_witness :
    (("" : String) = "" ∨ ("token123" : String) = "") ∧
    verify "" "token123" (.ok { username := some "alice" }) =
      { requests := [], verifications := [], errors := [], promise := .ok () } :=
  ⟨Or.inl rfl,
    verify_incomplete_config_is_silent "" "token123"
      (.ok { username := some "alice" }) (Or.inl rfl)⟩

/-- C7, counterexample to the claim as stated: a failure whose message text is
empty surfaces the fixed message "Failed to connect to Miniflux", not a
generic message wrapping the (empty) underlying error text. -/
theorem verify_empty_message_not_wrapped :
    (verify "https://miniflux.example.net" "token123" (.error "")).errors =
      ["Failed to connect to Miniflux"] ∧
    ("Failed to connect to Miniflux" : String) ≠ "Connection error: " ++ "" := by
  constructor
  · rfl
  · decide

/-- C7 (amended): on a verification failure with complete configuration,
exactly one message is surfaced to the error channel, selected by inspecting
the failure text in the order 401, 404, timeout; a failure matching no marker
and carrying non-empty text yields the generic connection-error message
wrapping that text, while a failure with empty text yields the fixed message
"Failed to connect to Miniflux". -/
theorem verify_failure_message_selection
    (site apiToken msg : String) (hs : site ≠ "") (ht : apiToken ≠ "") :
    (verify site apiToken (.error msg)).errors = [verifyErrorMessage msg] ∧
    (verify site apiToken (.error msg)).promise = .error msg ∧
    (jsIncludes msg "401" = true →
      verifyErrorMessage msg =
        "Authentication failed. Please check your API token.") ∧
    (jsIncludes msg "401" = false → jsIncludes msg "404" = true →
      verifyErrorMessage msg =
        "Miniflux instance not found. Please check your instance URL.") ∧
    (jsIncludes msg "401" = false → jsIncludes msg "404" = false →
      jsIncludes msg "timeout" = true →
      verifyErrorMessage msg =
        "Request timeout. Please check your internet connection.") ∧
    (jsIncludes msg "401" = false → jsIncludes msg "404" = false →
      jsIncludes msg "timeout" = false → msg ≠ "" →
      verifyErrorMessage msg = "Connection error: " ++ msg) ∧
    (jsIncludes msg "401" = false → jsIncludes msg "404" = false →
      jsIncludes msg "timeout" = false → msg = "" →
      verifyErrorMessage msg = "Failed to connect to Miniflux") := by
  have hcond : ¬(site = "" ∨ apiToken = "") := by
    push_neg
    exact ⟨hs, ht⟩
  refine ⟨?_, ?_, ?_, ?_, ?_, ?_, ?_⟩
  · unfold verify
    rw [if_neg hcond]
  · unfold verify
    rw [if_neg hcond]
  · intro h401
    simp [verifyErrorMessage, h401]
  · intro h401 h404
    simp [verifyErrorMessage, h401, h404]
  · intro h401 h404 hto
    simp [verifyErrorMessage, h401, h404, hto]
  · intro h401 h404 hto hmsg
    simp [verifyErrorMessage, h401, h404, hto, hmsg]
  · intro h401 h404 hto hmsg
    subst hmsg
    simp [verifyErrorMessage, h401, h404, hto]

/-- C7 witness: a failure matching no marker with non-empty text. -/
theorem verify_failure_message_selection_witness :
    ("https://miniflux.example.net" : String) ≠ "" ∧
    ("token123" : String) ≠ "" ∧
    (verify "https://miniflux.example.net" "token123"
      (.error "HTTP 500")).errors = [verifyErrorMessage "HTTP 500"] :=
  ⟨by decide, by decide,
    (verify_failure_message_selection "https://miniflux.example.net" "token123"
      "HTTP 500" (by decide) (by decide)).1⟩

/-- C8 (confirmed): the derived item identifier `url + "#" + id` coincides
for two entries exactly when both the url and the id coincide — distinct
(url, id) pairs always get distinct identifiers, and re-fetching the same
article always reproduces the same identifier. -/
theorem item_uri_injective_on_url_id (e1 e2 : Entry) :
    (convertEntryToItem e1).uri = (convertEntryToItem e2).uri ↔
      e1.url = e2.url ∧ e1.id = e2.id := by
  constructor
  · intro h
    have huri : ∀ e : Entry, (convertEntryToItem e).uri =
        e.url ++ "#" ++ jsNatToString e.id := fun e => rfl
    rw [huri, huri] at h
    have hdata := congrArg String.data h
    simp only [String.data_append] at hdata
    have hd1 : e1.url.data ++ '#' :: (jsNatToString e1.id).data =
        e2.url.data ++ '#' :: (jsNatToString e2.id).data := by
      simpa using hdata
    have hrev := congrArg List.reverse hd1
    simp only [List.reverse_append, List.reverse_cons] at hrev
    have hnot : ∀ n : Nat, '#' ∉ ((jsNatToString n).data).reverse := by
      intro n hc
      rw [List.mem_reverse] at hc
      have := mem_jsNatToString_isDigit n _ hc
      simp at this
    have hsplit := append_sep_inj _ (hnot e1.id) (hnot e2.id) (by
      simpa [List.append_assoc] using hrev)
    obtain ⟨hdrev, hurev⟩ := hsplit
    have hid : e1.id = e2.id := by
      apply jsNatToString_inj
      apply string_data_inj
      have := congrArg List.reverse hdrev
      simpa using this
    have hurl : e1.url = e2.url := by
      apply string_data_inj
      have := congrArg List.reverse hurev
      simpa using this
    exact ⟨hurl, hid⟩
  · intro ⟨h1, h2⟩
    show e1.url ++ "#" ++ jsNatToString e1.id =
      e2.url ++ "#" ++ jsNatToString e2.id
    rw [h1, h2]

/-- C9, counterexample to the claim as stated: for an entry whose
`published_at` is the epoch-seconds number 1700000000, the item's instant is
1700000000 milliseconds since the epoch, not the instant 1700000000 seconds
(= 1700000000000 milliseconds) since the epoch that the claim requires. -/
theorem published_at_seconds_not_scaled :
    (convertEntryToItem entryUnread10).date.epochMillis = 1700000000 ∧
    (convertEntryToItem entryUnread10).date ≠
      jsDateOfNumber (1700000000 * 1000) := by
  decide

/-- C9 (amended): the mapper passes the numeric `published_at` value straight
to the Date constructor, which treats a numeric argument as epoch
milliseconds — an epoch-seconds timestamp t therefore yields the instant t
milliseconds (t/1000 seconds) since the epoch. -/
theorem item_date_millis_eq_published_at (e : Entry) :
    (convertEntryToItem e).date = jsDateOfNumber e.published_at ∧
    (convertEntryToItem e).date.epochMillis = e.published_at :=
  ⟨rfl, rfl⟩

/-- C10 (confirmed): for any action identifier other than "mark_as_read",
`performAction` resolves successfully, issues no outbound request, and does
nothing else — the unknown action is silently ignored. -/
theorem performAction_unknown_action_noop
    (actionId actionValue site : String) (putResult : Except String String)
    (h : actionId ≠ "mark_as_read") :
    performAction actionId actionValue site putResult =
      { requests := [], promise := .ok none } := by
  unfold performAction
  rw [if_pos h]

/-- C10 witness: the "star" action (exposed by later connector variants) is
ignored by this code. -/
theorem performAction_unknown_action_noop_witness :
    ("star" : String) ≠ "mark_as_read" ∧
    performAction "star" "10" "https://miniflux.example.net" (.ok "{}") =
      { requests := [], promise := .ok none } :=
  ⟨by decide,
    performAction_unknown_action_noop "star" "10" "https://miniflux.example.net"
      (.ok "{}") (by decide)⟩

end Miniflux
